import Mathlib

/-!
Shallow embedding of the Sisly Resort reservation service (`src/main.py`):
a single-table CRUD store over SQLite exposed through six endpoints
(health, create, list, get-one, update, delete, cleanup-expired).

The SQLite table is modelled as a list of rows in insertion (rowid) order
together with the AUTOINCREMENT counter.  Each handler becomes a pure
function from its inputs and the store to a response and the new store;
HTTP 404/422 failures become an error value.  The wall clock enters as
explicit parameters: the `created_at` stamp as a string and `date('now')`
as a calendar date.
-/

namespace Sisly

/-- One row of the `reservations` table, equally the `Reservation` pydantic
response model (`main.py` lines 22-44 and 65-67).  Nullable columns are
`Option String`.  SQLite `REAL` is stored and returned verbatim and never
computed with, so `total_price` is represented by `Rat`, which has decidable
equality. -/
structure Reservation where
  id : Nat
  guest_name : String
  guest_email : String
  guest_phone : Option String
  check_in : String
  check_out : String
  check_in_time : Option String
  check_out_time : Option String
  room_type : String
  room_count : Int
  adults : Int
  children : Int
  total_price : Rat
  payment_status : String
  special_requests : Option String
  experiences : Option String
  created_at : String
deriving DecidableEq, Repr

/-- The `ReservationCreate` pydantic request model (`main.py` lines 48-63):
everything but `id` and `created_at`, with the same optional fields. -/
structure ReservationCreate where
  guest_name : String
  guest_email : String
  guest_phone : Option String
  check_in : String
  check_out : String
  check_in_time : Option String
  check_out_time : Option String
  room_type : String
  room_count : Int
  adults : Int
  children : Int
  total_price : Rat
  payment_status : String
  special_requests : Option String
  experiences : Option String
deriving DecidableEq, Repr

/-- Python `x or dflt` on an optional string: both `None` and `""` are falsy
and fall through to the default. -/
def pyOrStr (x : Option String) (dflt : String) : String :=
  match x with
  | some s => if s = "" then dflt else s
  | none => dflt

/-- The persistent state: the `reservations` rows in insertion (rowid) order
plus the AUTOINCREMENT counter, which SQLite keeps in `sqlite_sequence` and
never rewinds, even after deletes. -/
structure Store where
  rows : List Reservation
  nextId : Nat
deriving DecidableEq, Repr

/-- The table auto-created on startup by `init_db`: empty, ids start at 1. -/
def emptyStore : Store := { rows := [], nextId := 1 }

/-- HTTP-level failures raised by the handlers: 404 and 422. -/
inductive ApiError
  | notFound
  | validationFailed
deriving DecidableEq, Repr

/-- `create_reservation` (`main.py` 91-145): assign the next AUTOINCREMENT
id, stamp `created_at` with the current UTC instant (passed here as `now`),
insert the row — `experiences` goes through Python `payload.experiences or ""`
— and return the row re-read by its fresh primary key. -/
def createReservation (p : ReservationCreate) (now : String) (db : Store) :
    Reservation × Store :=
  let r : Reservation :=
    { id := db.nextId
      guest_name := p.guest_name
      guest_email := p.guest_email
      guest_phone := p.guest_phone
      check_in := p.check_in
      check_out := p.check_out
      check_in_time := p.check_in_time
      check_out_time := p.check_out_time
      room_type := p.room_type
      room_count := p.room_count
      adults := p.adults
      children := p.children
      total_price := p.total_price
      payment_status := p.payment_status
      special_requests := p.special_requests
      experiences := some (pyOrStr p.experiences "")
      created_at := now }
  (r, { rows := db.rows ++ [r], nextId := db.nextId + 1 })

/-- Modelled from the spec: `guest_email` is validated by pydantic `EmailStr`
(the email-validator package), which is not part of this repository; the spec
says only that the email must parse as a syntactically valid address or the
operation fails with a ValidationError.  Modelled as: no whitespace, exactly
one `@`, a nonempty local part, and a nonempty domain containing a dot.  The
claims below depend only on invalid emails being rejected before the store is
touched. -/
def validEmail (s : String) : Bool :=
  let cs := s.data
  let loc := cs.takeWhile (fun c => !(c == '@'))
  let dom := (cs.dropWhile (fun c => !(c == '@'))).drop 1
  cs.all (fun c => !c.isWhitespace) &&
    cs.count '@' == 1 && !loc.isEmpty && !dom.isEmpty && dom.contains '.'

/-- The whole POST handler boundary: FastAPI/pydantic validates the payload
(in particular the email) before `create_reservation` runs, so a malformed
email yields a 422 and the database is never touched. -/
def handleCreateRequest (p : ReservationCreate) (now : String) (db : Store) :
    Except ApiError Reservation × Store :=
  if validEmail p.guest_email then
    let rdb := createReservation p now db
    (Except.ok rdb.1, rdb.2)
  else
    (Except.error ApiError.validationFailed, db)

/-- `get_reservation` (`main.py` 158-167): `SELECT * WHERE id = ?` yields the
first matching row; 404 when there is none. -/
def getReservation (db : Store) (id : Nat) : Except ApiError Reservation :=
  match db.rows.find? (fun r => r.id == id) with
  | some r => Except.ok r
  | none => Except.error ApiError.notFound

/-- SQLite `datetime(created_at)` on the ISO-8601 strings this service
writes (`datetime.utcnow().isoformat()`, e.g. `2024-06-15T10:20:30.123456`):
truncate to seconds precision and write the `T` separator as a space. -/
def datetimeKey (s : String) : String :=
  String.mk ((s.data.take 19).map (fun c => if c = 'T' then ' ' else c))

/-- `list_reservations` (`main.py` 149-156): `SELECT * FROM reservations
ORDER BY datetime(created_at) DESC`.  ORDER BY is a sort on the datetime
key; SQLite fixes no order between equal keys, insertion sort here. -/
def listReservations (db : Store) : List Reservation :=
  List.insertionSort
    (fun a b => datetimeKey b.created_at ≤ datetimeKey a.created_at) db.rows

/-- The field merge of `update_reservation` (`main.py` 185-190):
`payment_status` through Python `or` (truthiness — a supplied empty string
falls through to the current value), `special_requests` and `experiences`
through `is not None` (presence). -/
def applyUpdate (cur : Reservation)
    (payment_status special_requests experiences : Option String) :
    Reservation :=
  { cur with
    payment_status := pyOrStr payment_status cur.payment_status
    special_requests :=
      match special_requests with
      | some s => some s
      | none => cur.special_requests
    experiences :=
      match experiences with
      | some s => some s
      | none => cur.experiences }

/-- `update_reservation` (`main.py` 169-206): select the row (404 when
absent, with no write), merge the three optional query fields, `UPDATE ...
WHERE id = ?`, and return the row re-read by id. -/
def updateReservation (id : Nat)
    (payment_status special_requests experiences : Option String)
    (db : Store) : Except ApiError (Reservation × Store) :=
  match db.rows.find? (fun r => r.id == id) with
  | none => Except.error ApiError.notFound
  | some cur =>
    Except.ok (applyUpdate cur payment_status special_requests experiences,
      { db with
        rows := db.rows.map (fun row =>
          if row.id == id then
            applyUpdate row payment_status special_requests experiences
          else row) })

/-- The `{"status": "ok", "deleted_id": id}` confirmation of DELETE. -/
structure DeleteResponse where
  status : String
  deleted_id : Nat
deriving DecidableEq, Repr

/-- `delete_reservation` (`main.py` 208-220): `DELETE ... WHERE id = ?`,
then 404 exactly when the statement's rowcount is zero, otherwise a
confirmation carrying the deleted id.  The store after the statement is
returned in both cases (a rowcount of zero means nothing matched). -/
def deleteReservation (id : Nat) (db : Store) :
    Except ApiError DeleteResponse × Store :=
  let remaining := db.rows.filter (fun r => !(r.id == id))
  let deleted := db.rows.countP (fun r => r.id == id)
  ((if deleted == 0 then Except.error ApiError.notFound
    else Except.ok { status := "ok", deleted_id := id }),
   { db with rows := remaining })

/-- A calendar date as SQLite's date functions see one. -/
structure Date where
  y : Nat
  m : Nat
  d : Nat
deriving DecidableEq, Repr

/-- Gregorian leap year, as SQLite's Julian-day conversion observes it. -/
def isLeap (y : Nat) : Bool :=
  (y % 4 == 0 && y % 100 != 0) || y % 400 == 0

/-- Length of a month. -/
def daysInMonth (y m : Nat) : Nat :=
  if m = 2 then (if isLeap y then 29 else 28)
  else if m = 4 || m = 6 || m = 9 || m = 11 then 30
  else 31

/-- SQLite's `YYYY-MM-DD` parser accepts month 01-12 and day 01-31 and then
normalises through the Julian day number, so an overflowing day rolls into
the following month (`date('2024-02-31')` is `2024-03-02`).  With the day at
most 31 a single roll suffices. -/
def normalizeYmd (y m d : Nat) : Date :=
  if d ≤ daysInMonth y m then ⟨y, m, d⟩
  else if 12 ≤ m then ⟨y + 1, 1, d - daysInMonth y m⟩
  else ⟨y, m + 1, d - daysInMonth y m⟩

/-- Numeric value of a decimal digit character. -/
def digit (c : Char) : Nat := c.toNat - 48

/-- SQLite `date(substr(check_out, 1, 10))`: the first 10 characters must be
`YYYY-MM-DD` with month 1-12 and day 1-31, else the result is NULL (`none`),
and NULL satisfies no comparison in a WHERE clause. -/
def checkOutDate (s : String) : Option Date :=
  match s.data.take 10 with
  | [y1, y2, y3, y4, h1, mo1, mo2, h2, d1, d2] =>
    if h1 = '-' ∧ h2 = '-' ∧
        (y1.isDigit ∧ y2.isDigit ∧ y3.isDigit ∧ y4.isDigit) ∧
        (mo1.isDigit ∧ mo2.isDigit ∧ d1.isDigit ∧ d2.isDigit) then
      let y := ((digit y1 * 10 + digit y2) * 10 + digit y3) * 10 + digit y4
      let m := digit mo1 * 10 + digit mo2
      let d := digit d1 * 10 + digit d2
      if 1 ≤ m ∧ m ≤ 12 ∧ 1 ≤ d ∧ d ≤ 31 then some (normalizeYmd y m d)
      else none
    else none
  | _ => none

/-- Chronological strict order on dates, as SQLite compares its normalised
date strings. -/
def dateLt (a b : Date) : Bool :=
  a.y < b.y || (a.y == b.y && (a.m < b.m || (a.m == b.m && a.d < b.d)))

/-- The WHERE clause of cleanup: `date(substr(check_out,1,10)) < date('now')`
with `today` standing for `date('now')`. -/
def expiredOn (today : Date) (r : Reservation) : Bool :=
  match checkOutDate r.check_out with
  | some dt => dateLt dt today
  | none => false

/-- The `{"status":"ok","to_delete":n,"deleted_count":n}` cleanup report. -/
structure CleanupResponse where
  status : String
  to_delete : Nat
  deleted_count : Nat
deriving DecidableEq, Repr

/-- `cleanup_expired_reservations` (`main.py` 225-262): COUNT the matching
rows for reporting, DELETE with the same predicate (its rowcount is the
number of removed rows), and always answer status ok with both counts. -/
def cleanupExpired (today : Date) (db : Store) : CleanupResponse × Store :=
  let toDelete := db.rows.countP (expiredOn today)
  let remaining := db.rows.filter (fun r => !(expiredOn today r))
  let deleted := db.rows.countP (expiredOn today)
  ({ status := "ok", to_delete := toDelete, deleted_count := deleted },
   { db with rows := remaining })

/-- The calendar day after `t`, for stating the cleanup scenario. -/
def nextDay (t : Date) : Date :=
  if t.d < daysInMonth t.y t.m then ⟨t.y, t.m, t.d + 1⟩
  else if t.m < 12 then ⟨t.y, t.m + 1, 1⟩
  else ⟨t.y + 1, 1, 1⟩

/-- The calendar day before `t`, for stating the cleanup scenario. -/
def prevDay (t : Date) : Date :=
  if 1 < t.d then ⟨t.y, t.m, t.d - 1⟩
  else if 1 < t.m then ⟨t.y, t.m - 1, daysInMonth t.y (t.m - 1)⟩
  else ⟨t.y - 1, 12, 31⟩

/-- The AUTOINCREMENT invariant: every stored id is below the counter.  It
holds for the empty table and is preserved by every operation. -/
def IdInv (db : Store) : Prop :=
  ∀ r ∈ db.rows, r.id < db.nextId

/-- One API call acting on the store (reads omitted: they do not change it). -/
inductive Step : Store → Store → Prop
  | create (p : ReservationCreate) (now : String) (db : Store) :
      Step db (createReservation p now db).2
  | createReq (p : ReservationCreate) (now : String) (db : Store) :
      Step db (handleCreateRequest p now db).2
  | update (id : Nat) (ps sr ex : Option String) (db db' : Store)
      (r' : Reservation) :
      updateReservation id ps sr ex db = Except.ok (r', db') → Step db db'
  | del (id : Nat) (db : Store) : Step db (deleteReservation id db).2
  | cleanup (t : Date) (db : Store) : Step db (cleanupExpired t db).2

/-- Any number of API calls. -/
def Reaches : Store → Store → Prop := Relation.ReflTransGen Step

/-! Concrete sample data used by the witness theorems. -/

/-- A valid creation payload with `experiences` omitted. -/
def pA : ReservationCreate :=
  { guest_name := "Ada"
    guest_email := "ada@example.com"
    guest_phone := none
    check_in := "2024-06-10"
    check_out := "2024-06-14"
    check_in_time := none
    check_out_time := none
    room_type := "suite"
    room_count := 1
    adults := 2
    children := 0
    total_price := 100
    payment_status := "paid"
    special_requests := none
    experiences := none }

/-- The record created from `pA` on the empty store. -/
def rA : Reservation := (createReservation pA "2024-06-01T09:00:00.000001" emptyStore).1

/-- The store holding exactly `rA`. -/
def dbA : Store := (createReservation pA "2024-06-01T09:00:00.000001" emptyStore).2

/-- A payload like `pA` but with `experiences` supplied. -/
def pB : ReservationCreate := { pA with experiences := some "spa tour" }

/-- A second record, checking out two days after `rA`. -/
def rB : Reservation :=
  { rA with id := 2, check_out := "2024-06-16", created_at := "2024-06-02T09:00:00.000001" }

/-- A store holding `rA` and `rB`. -/
def dbPair : Store := { rows := [rA, rB], nextId := 3 }

/-- `rA` after an update supplying `payment_status=""` and a new
`special_requests`, leaving `experiences` unsupplied. -/
def updA : Reservation := applyUpdate rA (some "") (some "vegan") none

/-- The store holding exactly `updA`. -/
def dbAupd : Store := { rows := [updA], nextId := 2 }

/-- A payload whose email cannot parse as an address. -/
def pBad : ReservationCreate := { pA with guest_email := "not an email" }

/-- A row created one microsecond after `rA`, within the same second. -/
def rT2 : Reservation :=
  { rA with id := 2, created_at := "2024-06-01T09:00:00.000002" }

/-- The store holding `rA` then `rT2`, in creation (rowid) order. -/
def dbTie : Store := { rows := [rA, rT2], nextId := 3 }

/-! Helper lemmas shared by the claim theorems. -/

/-- A successful GET means the row lookup found exactly that record. -/
theorem find_of_getReservation {db : Store} {id : Nat} {r : Reservation}
    (h : getReservation db id = Except.ok r) :
    db.rows.find? (fun x => x.id == id) = some r := by
  unfold getReservation at h
  cases hf : db.rows.find? (fun x => x.id == id) with
  | none => rw [hf] at h; simp at h
  | some cur => rw [hf] at h; simp at h; rw [h]

/-- Canonical form of a successful PATCH: the first matching row is merged
and written through the id-keyed UPDATE. -/
theorem updateReservation_ok {db : Store} {id : Nat} {cur : Reservation}
    (ps sr ex : Option String)
    (hf : db.rows.find? (fun x => x.id == id) = some cur) :
    updateReservation id ps sr ex db =
      Except.ok (applyUpdate cur ps sr ex,
        { db with rows := db.rows.map (fun row =>
            if row.id == id then applyUpdate row ps sr ex else row) }) := by
  unfold updateReservation
  rw [hf]

/-- Merging with no supplied field leaves the record unchanged. -/
theorem applyUpdate_none_none_none (row : Reservation) :
    applyUpdate row none none none = row := rfl

/-! C1: PATCH field semantics. -/

/-- C1: for an existing reservation, PartialUpdate replaces `payment_status`
only when the supplied value is non-empty (a supplied empty string leaves it
unchanged), replaces `special_requests` and `experiences` whenever a value is
supplied, including an explicit empty string, and leaves any unsupplied field
unchanged. -/
theorem update_supplied_field_semantics (db : Store) (id : Nat)
    (ps sr ex : Option String) (r r' : Reservation) (db' : Store)
    (h1 : getReservation db id = Except.ok r)
    (h2 : updateReservation id ps sr ex db = Except.ok (r', db')) :
    (ps = none → r'.payment_status = r.payment_status) ∧
    (ps = some "" → r'.payment_status = r.payment_status) ∧
    (∀ s, ps = some s → s ≠ "" → r'.payment_status = s) ∧
    (sr = none → r'.special_requests = r.special_requests) ∧
    (∀ s, sr = some s → r'.special_requests = some s) ∧
    (ex = none → r'.experiences = r.experiences) ∧
    (∀ s, ex = some s → r'.experiences = some s) := by
  have hf := find_of_getReservation h1
  rw [updateReservation_ok ps sr ex hf] at h2
  simp only [Except.ok.injEq, Prod.mk.injEq] at h2
  have hr' : r' = applyUpdate r ps sr ex := h2.1.symm
  subst hr'
  refine ⟨?_, ?_, ?_, ?_, ?_, ?_, ?_⟩
  · rintro rfl; simp [applyUpdate, pyOrStr]
  · rintro rfl; simp [applyUpdate, pyOrStr]
  · rintro s rfl hs; simp [applyUpdate, pyOrStr, hs]
  · rintro rfl; simp [applyUpdate]
  · rintro s rfl; simp [applyUpdate]
  · rintro rfl; simp [applyUpdate]
  · rintro s rfl; simp [applyUpdate]

/-- Witness for C1 at a concrete store: supplying `payment_status=""` and
`special_requests="vegan"` changes only the latter. -/
theorem update_supplied_field_semantics_witness :
    updA.payment_status = rA.payment_status ∧
    updA.special_requests = some "vegan" ∧
    updA.experiences = rA.experiences := by
  have h := update_supplied_field_semantics dbA 1 (some "") (some "vegan") none
    rA updA dbAupd (by rfl) (by rfl)
  exact ⟨h.2.1 rfl, h.2.2.2.2.1 "vegan" rfl, h.2.2.2.2.2.1 rfl⟩

/-! C4: PATCH frame. -/

/-- C4: PartialUpdate changes at most `payment_status`, `special_requests`
and `experiences`: every other field of the record (including `id` and
`created_at`), the AUTOINCREMENT counter, and every other row of the table
are left exactly as they were. -/
theorem update_frame (db : Store) (id : Nat)
    (ps sr ex : Option String) (r r' : Reservation) (db' : Store)
    (h1 : getReservation db id = Except.ok r)
    (h2 : updateReservation id ps sr ex db = Except.ok (r', db')) :
    r'.id = r.id ∧ r'.created_at = r.created_at ∧
    r'.guest_name = r.guest_name ∧ r'.guest_email = r.guest_email ∧
    r'.guest_phone = r.guest_phone ∧ r'.check_in = r.check_in ∧
    r'.check_out = r.check_out ∧ r'.check_in_time = r.check_in_time ∧
    r'.check_out_time = r.check_out_time ∧ r'.room_type = r.room_type ∧
    r'.room_count = r.room_count ∧ r'.adults = r.adults ∧
    r'.children = r.children ∧ r'.total_price = r.total_price ∧
    db'.nextId = db.nextId ∧ db'.rows.length = db.rows.length ∧
    (∀ (i : Nat) (s : Reservation), db.rows[i]? = some s → s.id ≠ id →
      db'.rows[i]? = some s) := by
  have hf := find_of_getReservation h1
  rw [updateReservation_ok ps sr ex hf] at h2
  simp only [Except.ok.injEq, Prod.mk.injEq] at h2
  have hr' : r' = applyUpdate r ps sr ex := h2.1.symm
  have hdb' : db' = { db with rows := db.rows.map (fun row =>
      if row.id == id then applyUpdate row ps sr ex else row) } := h2.2.symm
  subst hr'; subst hdb'
  refine ⟨rfl, rfl, rfl, rfl, rfl, rfl, rfl, rfl, rfl, rfl, rfl, rfl, rfl, rfl,
    rfl, by simp, ?_⟩
  intro i s hi hs
  simp only [List.getElem?_map, hi, Option.map_some']
  have : (s.id == id) = false := by simp [hs]
  simp [this]

/-- Witness for C4: the concrete update behind `updA` preserves the identity,
timestamps and stay fields of `rA` and the table shape of `dbA`. -/
theorem update_frame_witness :
    updA.id = rA.id ∧ updA.created_at = rA.created_at ∧
    updA.check_out = rA.check_out ∧ updA.total_price = rA.total_price ∧
    dbAupd.nextId = dbA.nextId := by
  have h := update_frame dbA 1 (some "") (some "vegan") none
    rA updA dbAupd (by rfl) (by rfl)
  exact ⟨h.1, h.2.1, h.2.2.2.2.2.2.1, h.2.2.2.2.2.2.2.2.2.2.2.2.2.1,
    h.2.2.2.2.2.2.2.2.2.2.2.2.2.2.1⟩

/-! C10: PATCH with no supplied field is the identity. -/

/-- C10: for an existing reservation id, PartialUpdate with none of the three
optional fields supplied returns the stored record and leaves the store
exactly unchanged. -/
theorem update_no_fields_identity (db : Store) (id : Nat) (r : Reservation)
    (h1 : getReservation db id = Except.ok r) :
    updateReservation id none none none db = Except.ok (r, db) := by
  have hf := find_of_getReservation h1
  rw [updateReservation_ok none none none hf]
  have hmap : db.rows.map (fun row =>
      if row.id == id then applyUpdate row none none none else row) = db.rows :=
    List.map_id'' (fun row => by rw [applyUpdate_none_none_none, ite_self]) _
  rw [applyUpdate_none_none_none, hmap]

/-- Witness for C10 on the one-row store `dbA`. -/
theorem update_no_fields_identity_witness :
    updateReservation 1 none none none dbA = Except.ok (rA, dbA) :=
  update_no_fields_identity dbA 1 rA (by rfl)

/-! C6: malformed email is rejected before the store is touched. -/

/-- C6: when the payload's email does not parse as a valid address, the POST
handler fails with a ValidationError and the store is exactly as before. -/
theorem create_invalid_email_rejected (p : ReservationCreate) (now : String)
    (db : Store) (h : validEmail p.guest_email = false) :
    handleCreateRequest p now db = (Except.error ApiError.validationFailed, db) := by
  simp [handleCreateRequest, h]

/-- Witness for C6: the payload with email `"not an email"` is rejected on
the empty store, which stays empty. -/
theorem create_invalid_email_rejected_witness :
    handleCreateRequest pBad "2024-06-05T08:00:00.000001" emptyStore =
      (Except.error ApiError.validationFailed, emptyStore) :=
  create_invalid_email_rejected pBad "2024-06-05T08:00:00.000001" emptyStore (by decide)

/-! C5: DELETE semantics. -/

/-- C5: Delete fails with NotFound exactly when no record with the id exists,
and then the store is unchanged; when such a record exists it is removed,
rows with other ids survive, and the confirmation carries the deleted id. -/
theorem delete_spec (id : Nat) (db : Store) :
    ((deleteReservation id db).1 = Except.error ApiError.notFound ↔
      ∀ r ∈ db.rows, r.id ≠ id) ∧
    ((∀ r ∈ db.rows, r.id ≠ id) → (deleteReservation id db).2 = db) ∧
    (∀ r ∈ db.rows, r.id = id →
      (deleteReservation id db).1 =
        Except.ok { status := "ok", deleted_id := id } ∧
      (∀ s ∈ (deleteReservation id db).2.rows, s.id ≠ id) ∧
      (∀ s ∈ db.rows, s.id ≠ id → s ∈ (deleteReservation id db).2.rows) ∧
      (∀ s ∈ (deleteReservation id db).2.rows, s ∈ db.rows)) := by
  by_cases hc : db.rows.countP (fun r => r.id == id) = 0
  · have hall : ∀ r ∈ db.rows, r.id ≠ id := by
      have h0 := List.countP_eq_zero.mp hc
      intro r hr
      have := h0 r hr
      simpa using this
    have hres : deleteReservation id db =
        (Except.error ApiError.notFound,
          { db with rows := db.rows.filter (fun r => !(r.id == id)) }) := by
      unfold deleteReservation
      simp [hc]
    have hkeep : db.rows.filter (fun r => !(r.id == id)) = db.rows :=
      List.filter_eq_self.mpr (fun a ha => by simp [hall a ha])
    refine ⟨⟨fun _ => hall, fun _ => by rw [hres]⟩, ?_, ?_⟩
    · intro _
      rw [hres, hkeep]
    · intro r hr hrid
      exact absurd hrid (hall r hr)
  · have hres : deleteReservation id db =
        (Except.ok { status := "ok", deleted_id := id },
          { db with rows := db.rows.filter (fun r => !(r.id == id)) }) := by
      unfold deleteReservation
      simp [hc]
    have hex : ¬ ∀ r ∈ db.rows, r.id ≠ id := by
      intro hall
      exact hc (List.countP_eq_zero.mpr (fun a ha => by simp [hall a ha]))
    refine ⟨⟨?_, fun hall => absurd hall hex⟩, fun hall => absurd hall hex, ?_⟩
    · intro habs
      rw [hres] at habs
      simp at habs
    · intro r hr hrid
      refine ⟨by rw [hres], ?_, ?_, ?_⟩
      · intro s hs
        rw [hres] at hs
        have := (List.mem_filter.mp hs).2
        simpa using this
      · intro s hs hsid
        rw [hres]
        exact List.mem_filter.mpr ⟨hs, by simp [hsid]⟩
      · intro s hs
        rw [hres] at hs
        exact (List.mem_filter.mp hs).1

/-- Witness for C5: deleting the absent id 99 from the one-row store `dbA`
answers NotFound and leaves the store as it was. -/
theorem delete_spec_witness :
    (deleteReservation 99 dbA).1 = Except.error ApiError.notFound ∧
    (deleteReservation 99 dbA).2 = dbA := by
  have h := delete_spec 99 dbA
  have hall : ∀ r ∈ dbA.rows, r.id ≠ 99 := by decide
  exact ⟨h.1.mpr hall, h.2.1 hall⟩

/-! C3: GET after POST round-trip. -/

/-- C3 counterexample: creating from `pA`, whose `experiences` is omitted,
and reading the new id back yields a record whose `experiences` is the empty
string, not the omitted value — the claimed field-for-field equality with the
submitted payload fails at this input. -/
theorem create_get_roundtrip_counterexample :
    getReservation dbA rA.id = Except.ok rA ∧
    pA.experiences = none ∧ rA.experiences = some "" ∧
    rA.experiences ≠ pA.experiences :=
  ⟨by rfl, rfl, by rfl, by decide⟩

/-- C3 (amended): reading back the id returned by Create yields exactly the
stored record; its fields equal the submitted values, except that
`experiences` equals the submitted value only when one was supplied and
defaults to the empty string when omitted; `created_at` and `id` are the
stamped values. -/
theorem create_get_roundtrip_amended (p : ReservationCreate) (now : String)
    (db : Store) (h : IdInv db) :
    getReservation (createReservation p now db).2 (createReservation p now db).1.id
      = Except.ok (createReservation p now db).1 ∧
    (createReservation p now db).1.guest_name = p.guest_name ∧
    (createReservation p now db).1.guest_email = p.guest_email ∧
    (createReservation p now db).1.guest_phone = p.guest_phone ∧
    (createReservation p now db).1.check_in = p.check_in ∧
    (createReservation p now db).1.check_out = p.check_out ∧
    (createReservation p now db).1.check_in_time = p.check_in_time ∧
    (createReservation p now db).1.check_out_time = p.check_out_time ∧
    (createReservation p now db).1.room_type = p.room_type ∧
    (createReservation p now db).1.room_count = p.room_count ∧
    (createReservation p now db).1.adults = p.adults ∧
    (createReservation p now db).1.children = p.children ∧
    (createReservation p now db).1.total_price = p.total_price ∧
    (createReservation p now db).1.payment_status = p.payment_status ∧
    (createReservation p now db).1.special_requests = p.special_requests ∧
    (∀ s, p.experiences = some s →
      (createReservation p now db).1.experiences = some s) ∧
    (p.experiences = none →
      (createReservation p now db).1.experiences = some "") ∧
    (createReservation p now db).1.created_at = now ∧
    (createReservation p now db).1.id = db.nextId := by
  refine ⟨?_, rfl, rfl, rfl, rfl, rfl, rfl, rfl, rfl, rfl, rfl, rfl, rfl, rfl,
    rfl, ?_, ?_, rfl, rfl⟩
  · show getReservation (createReservation p now db).2 db.nextId = _
    unfold getReservation createReservation
    rw [List.find?_append]
    have hnone : db.rows.find? (fun x => x.id == db.nextId) = none :=
      List.find?_eq_none.mpr (fun x hx => by
        have := h x hx
        simp only [beq_iff_eq]
        omega)
    rw [hnone]
    simp
  · intro s hs
    show some (pyOrStr p.experiences "") = some s
    rw [hs]
    unfold pyOrStr
    by_cases h0 : s = "" <;> simp [h0]
  · intro h0
    show some (pyOrStr p.experiences "") = some ""
    rw [h0]
    rfl

/-- Witness for C3 at the payload `pB`, whose `experiences` is supplied. -/
theorem create_get_roundtrip_amended_witness :
    getReservation (createReservation pB "2024-06-03T10:00:00.000001" emptyStore).2
        (createReservation pB "2024-06-03T10:00:00.000001" emptyStore).1.id =
      Except.ok (createReservation pB "2024-06-03T10:00:00.000001" emptyStore).1 ∧
    (createReservation pB "2024-06-03T10:00:00.000001" emptyStore).1.experiences =
      some "spa tour" := by
  have h := create_get_roundtrip_amended pB "2024-06-03T10:00:00.000001" emptyStore
    (by intro r hr; simp [emptyStore] at hr)
  obtain ⟨hget, -, -, -, -, -, -, -, -, -, -, -, -, -, -, hexp, -, -, -⟩ := h
  exact ⟨hget, hexp "spa tour" rfl⟩

/-! Cleanup helper lemmas. -/

/-- Rows kept by a filter plus rows counted by its negated predicate
reconstitute the table size. -/
theorem length_filter_not_add_countP {α : Type} (p : α → Bool) (l : List α) :
    (l.filter (fun a => !(p a))).length + l.countP p = l.length := by
  induction l with
  | nil => rfl
  | cons a l ih =>
    by_cases h : p a <;>
      simp [List.filter_cons, List.countP_cons, h] <;> omega

/-- The day before `t` is strictly earlier than `t` (years start at 1). -/
theorem dateLt_prevDay (t : Date) (hy : 1 ≤ t.y) : dateLt (prevDay t) t = true := by
  unfold prevDay
  split_ifs with h1 h2 <;>
    · unfold dateLt
      simp only [Bool.or_eq_true, Bool.and_eq_true, decide_eq_true_eq,
        beq_iff_eq, true_and]
      omega

/-- The day after `t` is not earlier than `t`. -/
theorem dateLt_nextDay (t : Date) : dateLt (nextDay t) t = false := by
  unfold nextDay
  split_ifs with h1 h2 <;>
    · rw [Bool.eq_false_iff]
      intro hcontra
      unfold dateLt at hcontra
      simp only [Bool.or_eq_true, Bool.and_eq_true, decide_eq_true_eq,
        beq_iff_eq, true_and] at hcontra
      omega

/-! C2: cleanup deletes exactly the expired rows and always reports. -/

/-- C2: CleanupExpired deletes exactly the records whose check-out date — the
first 10 characters of the stored check_out string read as a calendar date —
is strictly earlier than the current date; records on or after today (and
unparseable ones, which the WHERE clause cannot match) are kept; and it
always returns status ok carrying matched count = deleted count, also when
zero records matched. -/
theorem cleanup_deletes_exactly_expired (today : Date) (db : Store) :
    (cleanupExpired today db).1.status = "ok" ∧
    (cleanupExpired today db).1.to_delete = db.rows.countP (expiredOn today) ∧
    (cleanupExpired today db).1.deleted_count =
      (cleanupExpired today db).1.to_delete ∧
    (cleanupExpired today db).2.rows.length +
      (cleanupExpired today db).1.deleted_count = db.rows.length ∧
    (∀ r ∈ db.rows, expiredOn today r = true →
      r ∉ (cleanupExpired today db).2.rows) ∧
    (∀ r ∈ db.rows, expiredOn today r = false →
      r ∈ (cleanupExpired today db).2.rows) ∧
    (∀ r ∈ (cleanupExpired today db).2.rows,
      r ∈ db.rows ∧ expiredOn today r = false) ∧
    (cleanupExpired today db).2.nextId = db.nextId := by
  refine ⟨rfl, rfl, rfl, length_filter_not_add_countP _ _, ?_, ?_, ?_, rfl⟩
  · intro r hr hexp hmem
    have hm : r ∈ db.rows.filter (fun x => !(expiredOn today x)) := hmem
    have := (List.mem_filter.mp hm).2
    rw [hexp] at this
    simp at this
  · intro r hr hexp
    show r ∈ db.rows.filter (fun x => !(expiredOn today x))
    exact List.mem_filter.mpr ⟨hr, by simp [hexp]⟩
  · intro r hr
    have hm : r ∈ db.rows.filter (fun x => !(expiredOn today x)) := hr
    have h2 := (List.mem_filter.mp hm).2
    exact ⟨(List.mem_filter.mp hm).1, by simpa using h2⟩

/-- Witness for C2: with the current date 2024-06-15, cleaning `dbA` (whose
single row checks out 2024-06-14) reports ok with one match and removes the
row. -/
theorem cleanup_deletes_exactly_expired_witness :
    (cleanupExpired ⟨2024, 6, 15⟩ dbA).1.status = "ok" ∧
    (cleanupExpired ⟨2024, 6, 15⟩ dbA).1.to_delete = 1 ∧
    rA ∉ (cleanupExpired ⟨2024, 6, 15⟩ dbA).2.rows := by
  have h := cleanup_deletes_exactly_expired ⟨2024, 6, 15⟩ dbA
  refine ⟨h.1, ?_, h.2.2.2.2.1 rA (by decide) (by decide)⟩
  rw [h.2.1]
  decide

/-! C9: the two-record cleanup scenario and its idempotent rerun. -/

/-- C9: on a store of exactly two records, one checking out the day before
the current date and one the day after, CleanupExpired deletes exactly the
first and reports to_delete = deleted_count = 1; run again on the result with
the date unchanged it reports 0/0 and deletes nothing. -/
theorem cleanup_two_record_scenario (t : Date) (r1 r2 : Reservation)
    (db : Store) (hy : 1 ≤ t.y)
    (h1 : checkOutDate r1.check_out = some (prevDay t))
    (h2 : checkOutDate r2.check_out = some (nextDay t))
    (hdb : db.rows = [r1, r2]) :
    (cleanupExpired t db).1.to_delete = 1 ∧
    (cleanupExpired t db).1.deleted_count = 1 ∧
    (cleanupExpired t db).2.rows = [r2] ∧
    (cleanupExpired t (cleanupExpired t db).2).1.to_delete = 0 ∧
    (cleanupExpired t (cleanupExpired t db).2).1.deleted_count = 0 ∧
    (cleanupExpired t (cleanupExpired t db).2).2.rows = [r2] := by
  have he1 : expiredOn t r1 = true := by
    unfold expiredOn
    rw [h1]
    exact dateLt_prevDay t hy
  have he2 : expiredOn t r2 = false := by
    unfold expiredOn
    rw [h2]
    exact dateLt_nextDay t
  have hrows : (cleanupExpired t db).2.rows = [r2] := by
    show db.rows.filter (fun r => !(expiredOn t r)) = [r2]
    rw [hdb]
    simp [List.filter_cons, he1, he2]
  have hcount1 : db.rows.countP (expiredOn t) = 1 := by
    rw [hdb]
    simp [List.countP_cons, he1, he2]
  have hcount0 : (cleanupExpired t db).2.rows.countP (expiredOn t) = 0 := by
    rw [hrows]
    simp [List.countP_cons, he2]
  refine ⟨hcount1, hcount1, hrows, hcount0, hcount0, ?_⟩
  show (cleanupExpired t db).2.rows.filter (fun r => !(expiredOn t r)) = [r2]
  rw [hrows]
  simp [List.filter_cons, he2]

/-- Witness for C9: current date 2024-06-15 on the store of `rA` (check-out
2024-06-14) and `rB` (check-out 2024-06-16). -/
theorem cleanup_two_record_scenario_witness :
    (cleanupExpired ⟨2024, 6, 15⟩ dbPair).1.to_delete = 1 ∧
    (cleanupExpired ⟨2024, 6, 15⟩ dbPair).1.deleted_count = 1 ∧
    (cleanupExpired ⟨2024, 6, 15⟩ dbPair).2.rows = [rB] ∧
    (cleanupExpired ⟨2024, 6, 15⟩ (cleanupExpired ⟨2024, 6, 15⟩ dbPair).2).1.to_delete = 0 ∧
    (cleanupExpired ⟨2024, 6, 15⟩ (cleanupExpired ⟨2024, 6, 15⟩ dbPair).2).1.deleted_count = 0 := by
  have h := cleanup_two_record_scenario ⟨2024, 6, 15⟩ rA rB dbPair
    (by decide) (by decide) (by decide) (by decide)
  exact ⟨h.1, h.2.1, h.2.2.1, h.2.2.2.1, h.2.2.2.2.1⟩

/-! C7: listing order. -/

/-- C7 counterexample: two records stamped within the same second, their
`created_at` differing only in microseconds, come back in strictly
increasing `created_at` order.  The sort key `datetime(created_at)` drops
fractional seconds, so both rows carry equal keys, and the claimed strictly
non-increasing `created_at` order fails on this store. -/
theorem list_sorted_desc_counterexample :
    listReservations dbTie = [rA, rT2] ∧
    rA.created_at < rT2.created_at ∧
    ¬ List.Sorted (fun a b : Reservation => b.created_at ≤ a.created_at)
        (listReservations dbTie) := by
  have hkey : datetimeKey rT2.created_at = datetimeKey rA.created_at := rfl
  have hr : datetimeKey rT2.created_at ≤ datetimeKey rA.created_at := le_of_eq hkey
  have heq : listReservations dbTie = [rA, rT2] := by
    show List.insertionSort
        (fun a b => datetimeKey b.created_at ≤ datetimeKey a.created_at)
        [rA, rT2] = [rA, rT2]
    simp only [List.insertionSort, List.orderedInsert]
    rw [if_pos hr]
  have hlt : rA.created_at < rT2.created_at := by
    rw [String.lt_iff_toList_lt]
    decide
  refine ⟨heq, hlt, fun h => ?_⟩
  rw [heq] at h
  have hle := List.rel_of_sorted_cons h rT2 (List.mem_singleton_self rT2)
  rw [String.le_iff_toList_le] at hle
  exact absurd hle (by decide)

/-- C7 (amended): ListAll always succeeds: it returns the empty sequence on
the empty store, and otherwise all stored records, ordered non-increasingly
by `created_at` truncated to seconds granularity — the exact sort key
`ORDER BY datetime(created_at) DESC` uses (most recently created first;
records whose `created_at` agree to the second carry equal keys and come
back in no guaranteed relative order). -/
theorem list_sorted_desc (db : Store) :
    (listReservations db).Perm db.rows ∧
    List.Sorted (fun a b : Reservation =>
      datetimeKey b.created_at ≤ datetimeKey a.created_at)
      (listReservations db) ∧
    (db.rows = [] → listReservations db = []) := by
  refine ⟨List.perm_insertionSort _ _, ?_, ?_⟩
  · haveI ht : IsTotal Reservation (fun a b =>
        datetimeKey b.created_at ≤ datetimeKey a.created_at) :=
      ⟨fun a b => le_total _ _⟩
    haveI htr : IsTrans Reservation (fun a b =>
        datetimeKey b.created_at ≤ datetimeKey a.created_at) :=
      ⟨fun a b c hab hbc => le_trans hbc hab⟩
    exact List.sorted_insertionSort _ _
  · intro h
    unfold listReservations
    rw [h]
    rfl

/-- Witness for C7: the empty store lists as the empty sequence, and the
two-row store lists a permutation of its rows. -/
theorem list_sorted_desc_witness :
    listReservations emptyStore = [] ∧
    (listReservations dbPair).Perm dbPair.rows := by
  have h1 := list_sorted_desc emptyStore
  have h2 := list_sorted_desc dbPair
  exact ⟨h1.2.2 rfl, h2.1⟩

/-! C8: id assignment is fresh and strictly monotone, ids never reused. -/

/-- The merge of a PATCH never touches the primary key. -/
theorem applyUpdate_id (cur : Reservation) (ps sr ex : Option String) :
    (applyUpdate cur ps sr ex).id = cur.id := rfl

/-- Shape of a successful PATCH: the counter survives and the rows are the
id-keyed rewrite of the old rows. -/
theorem updateReservation_ok_shape {id : Nat} {ps sr ex : Option String}
    {db db' : Store} {r' : Reservation}
    (h : updateReservation id ps sr ex db = Except.ok (r', db')) :
    db'.nextId = db.nextId ∧
    db'.rows = db.rows.map (fun row =>
      if row.id == id then applyUpdate row ps sr ex else row) := by
  unfold updateReservation at h
  cases hf : db.rows.find? (fun x => x.id == id) with
  | none =>
    rw [hf] at h
    simp at h
  | some cur =>
    rw [hf] at h
    simp only [Except.ok.injEq, Prod.mk.injEq] at h
    rw [← h.2]
    exact ⟨rfl, rfl⟩

/-- No single API call ever decreases the AUTOINCREMENT counter. -/
theorem step_nextId_le {a b : Store} (h : Step a b) : a.nextId ≤ b.nextId := by
  cases h with
  | create p now db => exact Nat.le_succ _
  | createReq p now db =>
    cases hv : validEmail p.guest_email <;>
      simp [handleCreateRequest, hv, createReservation, Nat.le_succ]
  | update id ps sr ex db db' r' heq =>
    exact Nat.le_of_eq (updateReservation_ok_shape heq).1.symm
  | del id db => exact Nat.le_refl _
  | cleanup t db => exact Nat.le_refl _

/-- The counter never decreases along any sequence of API calls. -/
theorem reaches_nextId_le {a b : Store} (h : Reaches a b) :
    a.nextId ≤ b.nextId := by
  unfold Reaches at h
  induction h with
  | refl => exact Nat.le_refl _
  | tail hab hbc ih => exact le_trans ih (step_nextId_le hbc)

/-- Every API call preserves the AUTOINCREMENT invariant. -/
theorem step_idInv {a b : Store} (hs : Step a b) (h : IdInv a) : IdInv b := by
  cases hs with
  | create p now db =>
    intro s hs'
    rcases List.mem_append.mp hs' with hl | hr
    · exact lt_trans (h s hl) (Nat.lt_succ_self _)
    · rw [List.mem_singleton.mp hr]
      exact Nat.lt_succ_self _
  | createReq p now db =>
    cases hv : validEmail p.guest_email with
    | false =>
      intro s hs'
      simp only [handleCreateRequest, hv, Bool.false_eq_true, if_false] at hs' ⊢
      exact h s hs'
    | true =>
      intro s hs'
      simp only [handleCreateRequest, hv, if_true] at hs' ⊢
      rcases List.mem_append.mp hs' with hl | hr
      · exact lt_trans (h s hl) (Nat.lt_succ_self _)
      · rw [List.mem_singleton.mp hr]
        exact Nat.lt_succ_self _
  | update id ps sr ex db db' r' heq =>
    intro s hs'
    obtain ⟨hn, hrows⟩ := updateReservation_ok_shape heq
    rw [hrows] at hs'
    rw [hn]
    rcases List.mem_map.mp hs' with ⟨x, hx, hfx⟩
    have hid : s.id = x.id := by
      rw [← hfx]
      by_cases hc : (x.id == id) = true <;> simp [hc, applyUpdate_id]
    rw [hid]
    exact h x hx
  | del id db =>
    intro s hs'
    exact h s (List.mem_filter.mp hs').1
  | cleanup t db =>
    intro s hs'
    exact h s (List.mem_filter.mp hs').1

/-- The AUTOINCREMENT invariant survives any sequence of API calls. -/
theorem reaches_idInv {a b : Store} (hr : Reaches a b) (h : IdInv a) :
    IdInv b := by
  unfold Reaches at hr
  induction hr with
  | refl => exact h
  | tail hab hbc ih => exact step_idInv hbc ih

/-- C8: every successful Create assigns `id = nextId`, which collides with no
stored id; the invariant is preserved along any further sequence of calls —
deletes included — and any later Create assigns a strictly greater id, so ids
are never reused. -/
theorem create_id_fresh_monotone (p : ReservationCreate) (now : String)
    (db : Store) (h : IdInv db) :
    (createReservation p now db).1.id = db.nextId ∧
    (∀ s ∈ db.rows, s.id ≠ (createReservation p now db).1.id) ∧
    IdInv (createReservation p now db).2 ∧
    (∀ db2, Reaches (createReservation p now db).2 db2 → IdInv db2) ∧
    (∀ (q : ReservationCreate) (now2 : String) (db2 : Store),
      Reaches (createReservation p now db).2 db2 →
      (createReservation p now db).1.id < (createReservation q now2 db2).1.id) := by
  have hinv' : IdInv (createReservation p now db).2 :=
    step_idInv (Step.create p now db) h
  refine ⟨rfl, fun s hs => Nat.ne_of_lt (h s hs), hinv',
    fun db2 h2 => reaches_idInv h2 hinv', ?_⟩
  intro q now2 db2 hreach
  have hle := reaches_nextId_le hreach
  show db.nextId < db2.nextId
  exact lt_of_lt_of_le (Nat.lt_succ_self _) hle

/-- Witness for C8: on the empty store the first id is 1 and a second create
on the resulting store assigns a strictly greater id. -/
theorem create_id_fresh_monotone_witness :
    (createReservation pA "2024-06-01T09:00:00.000001" emptyStore).1.id = 1 ∧
    (createReservation pA "2024-06-01T09:00:00.000001" emptyStore).1.id <
      (createReservation pB "2024-06-02T09:00:00.000001" dbA).1.id := by
  have h := create_id_fresh_monotone pA "2024-06-01T09:00:00.000001" emptyStore
    (by intro r hr; simp [emptyStore] at hr)
  exact ⟨h.1.trans rfl,
    h.2.2.2.2 pB "2024-06-02T09:00:00.000001" dbA Relation.ReflTransGen.refl⟩

end Sisly
